import Mathlib

/-!
Verification of the voice-catalog and speech-job layer of the `tts` repository
(`src/tts.py`, `src/app.py`).

The catalog, gender map and voice resolution are shallow embeddings of
`EdgeTTSWithAccents.__init__` and `EdgeTTSWithAccents.convert_text_to_speech`
in `src/tts.py`; the application-level operations (`process_text`,
`stream_text_with_delay`, `replay_last_audio`, `get_voices`) embed `src/app.py`.
Python dicts with string keys are embedded as association lists in insertion
order (`List.lookup` returns the first binding, matching dict lookup because
keys in the sources are unique); Python list indexing (including its negative
index semantics and `IndexError`) is embedded by `pyIndex`.  External effects
(the Edge TTS network call, the file write performed by `communicate.save`,
the playback sink) are parameters or counters: each operation returns, next to
its result, the number of times it invoked the synthesis provider (and, for the
streaming path, the playback sink).
-/

set_option autoImplicit false

namespace TTS

/-- Python's `needle in hay` substring test on lists of characters. -/
def listContainsSub (pat : List Char) : List Char → Bool
  | [] => pat.isEmpty
  | c :: rest => pat.isPrefixOf (c :: rest) || listContainsSub pat rest

/-- Python's `needle in hay` substring containment on strings. -/
def pyIn (needle hay : String) : Bool :=
  listContainsSub needle.data hay.data

/-- The accent catalog `self.available_accents` of `EdgeTTSWithAccents.__init__`
(`src/tts.py` lines 32-61): accent name → gender → ordered voice identifiers,
in source order. -/
def available_accents : List (String × List (String × List String)) :=
  [ ("American",
      [("Male", ["en-US-ChristopherNeural", "en-US-GuyNeural"]),
       ("Female", ["en-US-JennyNeural", "en-US-AriaNeural"])]),
    ("British",
      [("Male", ["en-GB-RyanNeural", "en-GB-ThomasNeural"]),
       ("Female", ["en-GB-SoniaNeural", "en-GB-LibbyNeural"])]),
    ("Indian",
      [("Male", ["en-IN-PrabhatNeural"]),
       ("Female", ["en-IN-NeerjaNeural"])]),
    ("Australian",
      [("Male", ["en-AU-WilliamNeural"]),
       ("Female", ["en-AU-NatashaNeural", "en-AU-AnnetteNeural"])]),
    ("Irish",
      [("Male", ["en-IE-ConnorNeural"]),
       ("Female", ["en-IE-EmilyNeural"])]),
    ("Canadian",
      [("Male", ["en-CA-LiamNeural"]),
       ("Female", ["en-CA-ClaraNeural"])]),
    ("South African",
      [("Male", ["en-ZA-LukeNeural"]),
       ("Female", ["en-ZA-LeahNeural"])]) ]

/-- The male-name-fragment heuristic of the `voice_gender` comprehension
(`src/tts.py` lines 64-66). -/
def isMaleVoice (voice : String) : Bool :=
  pyIn "Guy" voice || pyIn "Christopher" voice || pyIn "Ryan" voice ||
  pyIn "Thomas" voice || pyIn "Prabhat" voice || pyIn "William" voice ||
  pyIn "Connor" voice || pyIn "Liam" voice || pyIn "Luke" voice

/-- `self.voice_gender` as the code actually builds it (`src/tts.py` lines
63-69): the comprehension is `for accent, voices in self.available_accents.items()
for voice in voices`, and `voices` there is the inner *dict*, so iterating it
yields its keys `"Male"` and `"Female"`, not the voice identifier lists.
Duplicate keys in the embedded association list are harmless: `List.lookup`
returns the first binding and all bindings for a given key carry the same
value, matching the Python dict's overwrite behaviour. -/
def voice_gender : List (String × String) :=
  (available_accents.map
    (fun p => p.2.map
      (fun q => (q.1, if isMaleVoice q.1 then "Male" else "Female")))).flatten

/-- Python list indexing `l[i]` for an `int` index `i`: nonnegative indices
index from the front, indices in `[-len, 0)` index from the end, anything
else raises `IndexError` (embedded as `none`). -/
def pyIndex (l : List String) (i : Int) : Option String :=
  if 0 ≤ i then l.get? i.toNat
  else if 0 ≤ (l.length : Int) + i then l.get? ((l.length : Int) + i).toNat
  else none

/-- Errors of the embedded operations.  `unknownAccent`, `noVoicesForGender`
and `synthesisFailure` are the three `return False` paths of
`convert_text_to_speech`; `indexError` is an uncaught Python `IndexError` from
`voices[voice_index]`; `emptyInput` and `nothingToReplay` are the early
returns of `process_text` / `replay_last_audio`; `pythonError` is a generic
exception (`KeyError`, `ValueError`) caught by the `except` blocks of
`src/app.py`. -/
inductive TTSError where
  | unknownAccent
  | noVoicesForGender
  | indexError
  | synthesisFailure (detail : String)
  | emptyInput
  | nothingToReplay
  | pythonError (kind : String)
  deriving DecidableEq, Repr

/-- `src/tts.py` lines 186-189: the index is clamped to `0` only when
`voice_index >= len(voices)`; the element is then fetched with Python
indexing semantics. -/
def pickVoice (voices : List String) (voice_index : Int) : Except TTSError String :=
  match pyIndex voices (if (voices.length : Int) ≤ voice_index then 0 else voice_index) with
  | some v => .ok v
  | none => .error .indexError

/-- Python truthiness of the `gender` argument (`if gender:` at
`src/tts.py` line 175): `None` and the empty string are falsy. -/
def genderGiven : Option String → Bool
  | some g => g != ""
  | none => false

/-- The voice-resolution fragment of `convert_text_to_speech`
(`src/tts.py` lines 170-189): unknown accent fails; with a truthy gender the
gender's list is fetched with `.get(gender, [])` and an empty list fails;
with no gender the per-gender lists are concatenated in dict insertion order;
the index is clamped on the high side only and the voice fetched by Python
indexing. -/
def resolveVoice (accent : String) (gender : Option String) (voice_index : Int) :
    Except TTSError String :=
  match List.lookup accent available_accents with
  | none => .error .unknownAccent
  | some gmap =>
    if genderGiven gender then
      let vs := (List.lookup (gender.getD "") gmap).getD []
      if vs.isEmpty then .error .noVoicesForGender
      else pickVoice vs voice_index
    else
      pickVoice ((gmap.map Prod.snd).flatten) voice_index

/-- Equality of embedded results is decidable, so that the concrete catalog
facts below can be settled by `decide`. -/
instance exceptDecEq {ε α : Type} [DecidableEq ε] [DecidableEq α] :
    DecidableEq (Except ε α) := fun a b =>
  match a, b with
  | .ok x, .ok y =>
      if h : x = y then isTrue (by rw [h]) else isFalse (fun hc => by cases hc; exact h rfl)
  | .error x, .error y =>
      if h : x = y then isTrue (by rw [h]) else isFalse (fun hc => by cases hc; exact h rfl)
  | .ok _, .error _ => isFalse (fun hc => by cases hc)
  | .error _, .ok _ => isFalse (fun hc => by cases hc)

/-- A synthesis provider: `synthesize(text, voice)`, succeeding or failing with
a detail string.  Models the `edge_tts.Communicate(text, voice)` call together
with `communicate.save(...)`, which performs the network request and writes the
file (`src/tts.py` lines 200-207). -/
def Provider : Type := String → String → Except String Unit

/-- A provider stub that always succeeds. -/
def synthOk : Provider := fun _ _ => .ok ()

/-- A provider stub that always fails with the given detail. -/
def synthFail (detail : String) : Provider := fun _ _ => .error detail

/-- `EdgeTTSWithAccents.convert_text_to_speech` (`src/tts.py` lines 168-215):
resolve the voice, compute the output path (caller-supplied or the default
`generated_audio/output_<accent>.mp3`), invoke the provider once, and return
the output path on success or an error (the `return False` paths and the
caught exception path) otherwise.  The second component counts provider
invocations; every resolution failure happens before the provider is called. -/
def convert_text_to_speech (synth : Provider) (text accent : String)
    (gender : Option String) (voice_index : Int) (output_file : Option String) :
    Except TTSError (String × String) × Nat :=
  match resolveVoice accent gender voice_index with
  | .error e => (.error e, 0)
  | .ok voice =>
    let out := output_file.getD
      ("generated_audio/output_" ++ (accent.toLower.replace " " "_") ++ ".mp3")
    match synth text voice with
    | .ok _ => (.ok (voice, out), 1)
    | .error e => (.error (.synthesisFailure ("Error generating speech: " ++ e)), 1)

/-- Modelled from the spec: `stream_text_to_speech` is invoked from
`src/app.py` (lines 85, 121) but is not defined anywhere under `src/`.  Per
the spec's StreamAndPlay mode it resolves the voice exactly as
`convert_text_to_speech` does, invokes the synthesis provider once with
(text, voice), forwards the audio to the playback sink, and produces no file.
Returns the streamed voice identifier on success; the two counters are the
number of provider invocations and of playback-sink invocations. -/
def stream_text_to_speech (synth : Provider) (text accent : String)
    (gender : Option String) (voice_index : Int) :
    Except TTSError String × Nat × Nat :=
  match resolveVoice accent gender voice_index with
  | .error e => (.error e, 0, 0)
  | .ok voice =>
    match synth text voice with
    | .ok _ => (.ok voice, 1, 1)
    | .error e => (.error (.synthesisFailure e), 1, 0)

/-- Python's `text.strip()`: the text with leading and trailing whitespace
removed (structural on the character list). -/
def pyStrip (s : String) : String :=
  ⟨((s.data.dropWhile Char.isWhitespace).reverse.dropWhile Char.isWhitespace).reverse⟩

/-- The mutable module-level state of `src/app.py` that the claims are about:
`last_text` (initially `""`) and `last_audio_path` (initially `None`).  The
transient flags (`is_processing`, typing timestamps) are not observable by
any claim. -/
structure AppState where
  last_text : String
  last_audio_path : Option String
  deriving DecidableEq, Repr

/-- The fresh-session state of `src/app.py` lines 13-14. -/
def initialState : AppState := { last_text := "", last_audio_path := none }

/-- `get_voices` (`src/app.py` lines 103-105): `available_accents[accent][gender]`,
raising `KeyError` (here `none`) when either key is absent. -/
def get_voices (accent gender : String) : Option (List String) :=
  match List.lookup accent available_accents with
  | none => none
  | some gmap => List.lookup gender gmap

/-- `process_text` (`src/app.py` lines 20-62): empty-after-trim text returns
immediately without touching the state; otherwise `last_text` and
`last_audio_path` are set (before voice lookup, so they are updated even when
a later step throws), the voice index is recovered with `voices.index(voice)`,
and `convert_text_to_speech` runs with the temp path as output file.
`temp_path` stands for the fresh `tempfile.NamedTemporaryFile` name.  Returns
(result, new state, provider invocation count). -/
def process_text (synth : Provider) (temp_path : String)
    (text accent gender voice : String) (st : AppState) :
    Except TTSError String × AppState × Nat :=
  if pyStrip text = "" then (.error .emptyInput, st, 0)
  else
    let st1 : AppState := { last_text := text, last_audio_path := some temp_path }
    match List.lookup accent available_accents with
    | none => (.error (.pythonError "KeyError"), st1, 0)
    | some gmap =>
      match List.lookup gender gmap with
      | none => (.error (.pythonError "KeyError"), st1, 0)
      | some voices =>
        match List.findIdx? (fun v => v == voice) voices with
        | none => (.error (.pythonError "ValueError"), st1, 0)
        | some vi =>
          match convert_text_to_speech synth text accent (some gender) (vi : Int)
              (some temp_path) with
          | (.ok (_, out), n) => (.ok out, st1, n)
          | (.error e, n) => (.error e, st1, n)

/-- `stream_text_with_delay` (`src/app.py` lines 65-100): empty-after-trim
text returns immediately without touching the state; otherwise only
`last_text` is updated, the voice index is recovered with
`voices.index(voice)`, and the streaming path runs.  Returns
(result, new state, provider invocations, playback invocations). -/
def stream_text_with_delay (synth : Provider)
    (text accent gender voice : String) (st : AppState) :
    Except TTSError String × AppState × Nat × Nat :=
  if pyStrip text = "" then (.error .emptyInput, st, 0, 0)
  else
    let st1 : AppState := { st with last_text := text }
    match List.lookup accent available_accents with
    | none => (.error (.pythonError "KeyError"), st1, 0, 0)
    | some gmap =>
      match List.lookup gender gmap with
      | none => (.error (.pythonError "KeyError"), st1, 0, 0)
      | some voices =>
        match List.findIdx? (fun v => v == voice) voices with
        | none => (.error (.pythonError "ValueError"), st1, 0, 0)
        | some vi =>
          match stream_text_to_speech synth text accent (some gender) (vi : Int) with
          | (r, s, p) => (r, st1, s, p)

/-- `replay_last_audio` (`src/app.py` lines 108-134): with an empty
`last_text` it fails at once; otherwise it re-resolves the voice index from
the *currently selected* accent, gender and voice and re-runs the streaming
path on the captured `last_text`.  Returns (result, provider invocations,
playback invocations). -/
def replay_last_audio (synth : Provider) (accent gender voice : String)
    (st : AppState) : Except TTSError String × Nat × Nat :=
  if st.last_text = "" then (.error .nothingToReplay, 0, 0)
  else
    match List.lookup accent available_accents with
    | none => (.error (.pythonError "KeyError"), 0, 0)
    | some gmap =>
      match List.lookup gender gmap with
      | none => (.error (.pythonError "KeyError"), 0, 0)
      | some voices =>
        match List.findIdx? (fun v => v == voice) voices with
        | none => (.error (.pythonError "ValueError"), 0, 0)
        | some vi =>
          stream_text_to_speech synth st.last_text accent (some gender) (vi : Int)

/-! ### Helper lemmas about the index clamp and Python indexing -/

theorem pickVoice_high (l : List String) (idx : Int) (h : (l.length : Int) ≤ idx) :
    pickVoice l idx = pickVoice l 0 := by
  unfold pickVoice
  rw [if_pos h, ite_self]

theorem pickVoice_neg (l : List String) (idx : Int)
    (h1 : -(l.length : Int) ≤ idx) (h2 : idx < 0) :
    pickVoice l idx = pickVoice l ((l.length : Int) + idx) := by
  have ha : ¬ ((l.length : Int) ≤ idx) := by omega
  have hb : ¬ ((l.length : Int) ≤ (l.length : Int) + idx) := by omega
  have hc : ¬ (0 ≤ idx) := by omega
  have hd : 0 ≤ (l.length : Int) + idx := by omega
  unfold pickVoice
  rw [if_neg ha, if_neg hb]
  unfold pyIndex
  rw [if_neg hc, if_pos hd, if_pos hd]

theorem pickVoice_too_neg (l : List String) (idx : Int) (h : idx < -(l.length : Int)) :
    pickVoice l idx = .error .indexError := by
  have ha : ¬ ((l.length : Int) ≤ idx) := by omega
  have hc : ¬ (0 ≤ idx) := by omega
  have hd : ¬ (0 ≤ (l.length : Int) + idx) := by omega
  unfold pickVoice
  rw [if_neg ha]
  unfold pyIndex
  rw [if_neg hc, if_neg hd]

theorem pickVoice_ne_noVoices (l : List String) (idx : Int) :
    pickVoice l idx ≠ .error .noVoicesForGender := by
  unfold pickVoice
  cases pyIndex l (if (l.length : Int) ≤ idx then 0 else idx) <;> simp

theorem resolveVoice_gender_eq (accent g : String) (gmap : List (String × List String))
    (vs : List String) (h1 : List.lookup accent available_accents = some gmap)
    (h2 : List.lookup g gmap = some vs) (hg : g ≠ "") (hvs : vs ≠ []) (idx : Int) :
    resolveVoice accent (some g) idx = pickVoice vs idx := by
  cases vs with
  | nil => exact absurd rfl hvs
  | cons a t => simp [resolveVoice, h1, h2, genderGiven, hg]

theorem resolveVoice_none_eq (accent : String) (gmap : List (String × List String))
    (h1 : List.lookup accent available_accents = some gmap) (idx : Int) :
    resolveVoice accent none idx = pickVoice ((gmap.map Prod.snd).flatten) idx := by
  simp [resolveVoice, h1, genderGiven]

/-! ### Claim theorems -/

/-- C1 (counterexample): the claim says every out-of-range index — negative or
≥ length — resolves like index 0, but `src/tts.py` line 186 clamps only when
`voice_index >= len(voices)`: index `-1` for American/Male resolves to the
*last* voice `en-US-GuyNeural`, not to the index-0 voice
`en-US-ChristopherNeural`. -/
theorem resolveVoice_negative_index_not_clamped :
    resolveVoice "American" (some "Male") (-1) = .ok "en-US-GuyNeural" ∧
    resolveVoice "American" (some "Male") 0 = .ok "en-US-ChristopherNeural" ∧
    resolveVoice "American" (some "Male") (-1) ≠ resolveVoice "American" (some "Male") 0 := by
  decide

/-- C1 (amended): for every catalog accent/gender with voice list `vs`, an
index `≥ len` is clamped to 0 (same voice as index 0, no error); a negative
index is NOT clamped: for `-len ≤ idx < 0` it resolves like the index
`len + idx` (Python indexing from the end), and for `idx < -len` it raises an
IndexError instead of resolving. -/
theorem resolveVoice_out_of_range (accent g : String)
    (gmap : List (String × List String)) (vs : List String)
    (h1 : List.lookup accent available_accents = some gmap)
    (h2 : List.lookup g gmap = some vs) (hg : g ≠ "") (hvs : vs ≠ []) :
    (∀ idx : Int, (vs.length : Int) ≤ idx →
        resolveVoice accent (some g) idx = resolveVoice accent (some g) 0) ∧
    (∀ idx : Int, -(vs.length : Int) ≤ idx → idx < 0 →
        resolveVoice accent (some g) idx =
          resolveVoice accent (some g) ((vs.length : Int) + idx)) ∧
    (∀ idx : Int, idx < -(vs.length : Int) →
        resolveVoice accent (some g) idx = .error .indexError) := by
  refine ⟨fun idx hi => ?_, fun idx hi1 hi2 => ?_, fun idx hi => ?_⟩
  · rw [resolveVoice_gender_eq accent g gmap vs h1 h2 hg hvs idx,
        resolveVoice_gender_eq accent g gmap vs h1 h2 hg hvs 0,
        pickVoice_high vs idx hi]
  · rw [resolveVoice_gender_eq accent g gmap vs h1 h2 hg hvs idx,
        resolveVoice_gender_eq accent g gmap vs h1 h2 hg hvs _,
        pickVoice_neg vs idx hi1 hi2]
  · rw [resolveVoice_gender_eq accent g gmap vs h1 h2 hg hvs idx,
        pickVoice_too_neg vs idx hi]

/-- Witness for C1 (amended) at American/Male (2 voices): index 7 clamps to
index 0, index -1 resolves like index 1, index -5 raises. -/
theorem resolveVoice_out_of_range_witness :
    resolveVoice "American" (some "Male") 7 = resolveVoice "American" (some "Male") 0 ∧
    resolveVoice "American" (some "Male") (-1) = resolveVoice "American" (some "Male") 1 ∧
    resolveVoice "American" (some "Male") (-5) = .error .indexError := by
  have h := resolveVoice_out_of_range "American" "Male"
    [("Male", ["en-US-ChristopherNeural", "en-US-GuyNeural"]),
     ("Female", ["en-US-JennyNeural", "en-US-AriaNeural"])]
    ["en-US-ChristopherNeural", "en-US-GuyNeural"] rfl rfl (by decide) (by decide)
  refine ⟨h.1 7 (by decide), ?_, h.2.2 (-5) (by decide)⟩
  have hb := h.2.1 (-1) (by decide) (by decide)
  norm_num at hb
  exact hb

/-- C2: the cached `voice_gender` mapping does NOT have the catalog voice
identifiers as keys — the comprehension at `src/tts.py` lines 63-69 iterates
the inner gender *dict* (yielding `"Male"`/`"Female"`), not the voice lists,
so looking up a catalog voice such as `en-US-GuyNeural` misses (and the
detailed listing at line 141 would show `"Unknown"` for every voice).  Every
key of the built mapping is a gender string, and both map to `"Female"`. -/
theorem voice_gender_keys_are_genders :
    List.lookup "en-US-GuyNeural" voice_gender = none ∧
    List.lookup "Male" voice_gender = some "Female" ∧
    (voice_gender.map Prod.fst).all (fun k => k == "Male" || k == "Female") = true := by
  decide

/-- C3 (counterexample): after a successful job captured at state
`{last_text := "Hello world", last_audio_path := some "tmp.mp3"}` whose
resolved voice was `en-US-JennyNeural` (American/Female, index 0),
`replay_last_audio` called with the dropdowns now on British/Male/Ryan
streams `en-GB-RyanNeural` — a different voice identifier than the original
job's — and invokes the synthesis provider once (count 1, not 0): replay
re-resolves the voice and re-synthesizes instead of replaying the captured
artifact. -/
theorem replay_re_resolves_counterexample :
    (process_text synthOk "tmp.mp3" "Hello world" "American" "Female" "en-US-JennyNeural"
        initialState).2.1 =
      { last_text := "Hello world", last_audio_path := some "tmp.mp3" } ∧
    resolveVoice "American" (some "Female") 0 = .ok "en-US-JennyNeural" ∧
    replay_last_audio synthOk "British" "Male" "en-GB-RyanNeural"
        { last_text := "Hello world", last_audio_path := some "tmp.mp3" } =
      (.ok "en-GB-RyanNeural", 1, 1) ∧
    ("en-GB-RyanNeural" : String) ≠ "en-US-JennyNeural" := by
  decide

/-- C3 (amended): `replay_last_audio` with a non-empty captured text does use
the captured `last_text`, but it re-resolves the voice from the *currently
selected* accent/gender/voice and re-runs the synthesis streaming path
(`stream_text_to_speech`) with it; the replayed voice is the current
selection's, which coincides with the original job's voice only when the
selection is unchanged. -/
theorem replay_uses_current_selection (synth : Provider) (accent g voice : String)
    (gmap : List (String × List String)) (vs : List String) (i : Nat) (st : AppState)
    (hne : ¬ (st.last_text = ""))
    (h1 : List.lookup accent available_accents = some gmap)
    (h2 : List.lookup g gmap = some vs)
    (h3 : List.findIdx? (fun v => v == voice) vs = some i) :
    replay_last_audio synth accent g voice st =
      stream_text_to_speech synth st.last_text accent (some g) (i : Int) := by
  simp only [replay_last_audio, if_neg hne, h1, h2, h3]

/-- Witness for C3 (amended): replay at state with captured text
`"Hello world"` and current selection British/Male/Ryan streams the captured
text with the currently selected voice. -/
theorem replay_uses_current_selection_witness :
    replay_last_audio synthOk "British" "Male" "en-GB-RyanNeural"
        { last_text := "Hello world", last_audio_path := some "tmp.mp3" } =
      stream_text_to_speech synthOk "Hello world" "British" (some "Male") 0 :=
  replay_uses_current_selection synthOk "British" "Male" "en-GB-RyanNeural"
    [("Male", ["en-GB-RyanNeural", "en-GB-ThomasNeural"]),
     ("Female", ["en-GB-SoniaNeural", "en-GB-LibbyNeural"])]
    ["en-GB-RyanNeural", "en-GB-ThomasNeural"] 0
    { last_text := "Hello world", last_audio_path := some "tmp.mp3" }
    (by decide) rfl rfl (by decide)

/-- C4: text that is empty after trimming fails immediately with EmptyInput
in both modes (`process_text`, i.e. SaveToFile, and `stream_text_with_delay`,
i.e. StreamAndPlay), creates no job (the provider is never invoked) and
leaves the latest-job slot (`last_text`, `last_audio_path`) unchanged — for
every accent, gender and voice selection. -/
theorem empty_input_no_job (synth : Provider) (temp_path text accent gender voice : String)
    (st : AppState) (h : pyStrip text = "") :
    process_text synth temp_path text accent gender voice st =
      (.error .emptyInput, st, 0) ∧
    stream_text_with_delay synth text accent gender voice st =
      (.error .emptyInput, st, 0, 0) := by
  constructor
  · unfold process_text
    rw [if_pos h]
  · unfold stream_text_with_delay
    rw [if_pos h]

/-- Witness for C4: whitespace-only text against a non-trivial prior state. -/
theorem empty_input_no_job_witness :
    process_text synthOk "tmp.mp3" "   " "American" "Female" "en-US-JennyNeural"
        { last_text := "prev", last_audio_path := some "old.mp3" } =
      (.error .emptyInput, { last_text := "prev", last_audio_path := some "old.mp3" }, 0) ∧
    stream_text_with_delay synthOk "   " "American" "Female" "en-US-JennyNeural"
        { last_text := "prev", last_audio_path := some "old.mp3" } =
      (.error .emptyInput, { last_text := "prev", last_audio_path := some "old.mp3" }, 0, 0) :=
  empty_input_no_job synthOk "tmp.mp3" "   " "American" "Female" "en-US-JennyNeural"
    { last_text := "prev", last_audio_path := some "old.mp3" } (by decide)

/-- C5: an accent absent from the catalog makes both `resolveVoice` and
`convert_text_to_speech` fail with UnknownAccent for every gender and index;
no voice identifier is produced and the provider is never invoked (call
count 0, so no audio artifact exists). -/
theorem unknown_accent_fails (accent : String)
    (h : List.lookup accent available_accents = none) :
    (∀ (gender : Option String) (idx : Int),
        resolveVoice accent gender idx = .error .unknownAccent) ∧
    (∀ (synth : Provider) (text : String) (gender : Option String) (idx : Int)
        (out : Option String),
        convert_text_to_speech synth text accent gender idx out =
          (.error .unknownAccent, 0)) := by
  have hres : ∀ (gender : Option String) (idx : Int),
      resolveVoice accent gender idx = .error .unknownAccent := by
    intro gender idx
    unfold resolveVoice
    rw [h]
  refine ⟨hres, fun synth text gender idx out => ?_⟩
  unfold convert_text_to_speech
  rw [hres gender idx]

/-- Witness for C5: the accent "Martian" is not in the catalog. -/
theorem unknown_accent_fails_witness :
    resolveVoice "Martian" (some "Male") 2 = .error .unknownAccent ∧
    convert_text_to_speech synthOk "hi" "Martian" (some "Male") 2 none =
      (.error .unknownAccent, 0) := by
  have h := unknown_accent_fails "Martian" (by decide)
  exact ⟨h.1 (some "Male") 2, h.2 synthOk "hi" (some "Male") 2 none⟩

/-- C6: when the voice resolves but the external synthesis call fails, the
conversion ends in the failure outcome carrying the non-empty detail printed
at `src/tts.py` line 214 (`"Error generating speech: " ++ detail`), returns no
file artifact (the result is an error, not an output path), and the provider
was invoked exactly once — there is no automatic retry. -/
theorem synthesis_failure_no_retry (synth : Provider) (text accent : String)
    (gender : Option String) (idx : Int) (out : Option String) (v e : String)
    (hres : resolveVoice accent gender idx = .ok v)
    (hsynth : synth text v = .error e) :
    convert_text_to_speech synth text accent gender idx out =
      (.error (.synthesisFailure ("Error generating speech: " ++ e)), 1) ∧
    ("Error generating speech: " ++ e) ≠ "" := by
  constructor
  · simp only [convert_text_to_speech, hres, hsynth]
  · intro hc
    have hlen := congrArg String.length hc
    rw [String.length_append] at hlen
    have h1 : ("Error generating speech: " : String).length = 25 := rfl
    have h2 : ("" : String).length = 0 := rfl
    rw [h1, h2] at hlen
    omega

/-- Witness for C6: a provider stub that always fails with "network down",
on American/Male index 0. -/
theorem synthesis_failure_no_retry_witness :
    convert_text_to_speech (synthFail "network down") "Hello" "American" (some "Male") 0 none =
      (.error (.synthesisFailure ("Error generating speech: " ++ "network down")), 1) ∧
    ("Error generating speech: " ++ "network down") ≠ "" :=
  synthesis_failure_no_retry (synthFail "network down") "Hello" "American" (some "Male") 0 none
    "en-US-ChristopherNeural" "network down" (by decide) rfl

/-- C7: replaying in a session whose latest-job slot is empty (`last_text` is
the initial `""`) fails with NothingToReplay and invokes neither the
synthesis provider nor the playback sink (both counters are 0), for every
provider and every current accent/gender/voice selection. -/
theorem replay_nothing_to_replay (synth : Provider) (accent gender voice : String)
    (st : AppState) (h : st.last_text = "") :
    replay_last_audio synth accent gender voice st = (.error .nothingToReplay, 0, 0) := by
  unfold replay_last_audio
  rw [if_pos h]

/-- Witness for C7: replay on the fresh initial state. -/
theorem replay_nothing_to_replay_witness :
    replay_last_audio synthOk "American" "Female" "en-US-JennyNeural" initialState =
      (.error .nothingToReplay, 0, 0) :=
  replay_nothing_to_replay synthOk "American" "Female" "en-US-JennyNeural" initialState rfl

/-- C8: the catalog constant satisfies the invariant: every accent has both a
`"Male"` and a `"Female"` entry with at least one voice identifier each, and
the voice identifiers are globally unique across the whole catalog (the
catalog is a constant of the embedding, built once in
`EdgeTTSWithAccents.__init__` and never written afterwards). -/
theorem catalog_invariant :
    (∀ p ∈ available_accents,
        (List.lookup "Male" p.2).getD [] ≠ [] ∧
        (List.lookup "Female" p.2).getD [] ≠ []) ∧
    ((available_accents.map (fun p => (p.2.map Prod.snd).flatten)).flatten).Nodup := by
  decide

/-- Witness for C8: the American accent has a non-empty male voice list. -/
theorem catalog_invariant_witness :
    (List.lookup "Male"
      [("Male", ["en-US-ChristopherNeural", "en-US-GuyNeural"]),
       ("Female", ["en-US-JennyNeural", "en-US-AriaNeural"])]).getD [] ≠ [] :=
  (catalog_invariant.1
    ("American",
      [("Male", ["en-US-ChristopherNeural", "en-US-GuyNeural"]),
       ("Female", ["en-US-JennyNeural", "en-US-AriaNeural"])]) (by decide)).1

/-- C9: for every (accent, gender) pair in the catalog, `get_voices` returns
exactly the catalog's voice list, that list is non-empty, and resolving
(accent, gender, i) for every position i of the list returns exactly the
element at position i. -/
theorem listVoices_resolvable :
    ∀ p ∈ available_accents, ∀ q ∈ p.2,
      get_voices p.1 q.1 = some q.2 ∧
      q.2 ≠ [] ∧
      ∀ i : Nat, ∀ h : i < q.2.length,
        resolveVoice p.1 (some q.1) (i : Int) = .ok (q.2.get ⟨i, h⟩) := by
  decide

/-- Witness for C9: American/Male at its own index 1. -/
theorem listVoices_resolvable_witness :
    resolveVoice "American" (some "Male") 1 = .ok "en-US-GuyNeural" := by
  have h := listVoices_resolvable
    ("American",
      [("Male", ["en-US-ChristopherNeural", "en-US-GuyNeural"]),
       ("Female", ["en-US-JennyNeural", "en-US-AriaNeural"])]) (by decide)
    ("Male", ["en-US-ChristopherNeural", "en-US-GuyNeural"]) (by decide)
  exact h.2.2 1 (by decide)

/-- C10: with no gender given, the candidate list for a catalog accent is the
concatenation of the accent's `"Male"` list and its `"Female"` list, in that
(catalog) order, and the clamped index selects from that combined list; and
for NO accent (known or not) can the gender-omitted call ever fail with
NoVoicesForGender — that failure needs an explicitly given gender. -/
theorem gender_omitted_uses_combined_list :
    (∀ p ∈ available_accents, ∀ idx : Int,
        resolveVoice p.1 none idx =
          pickVoice ((List.lookup "Male" p.2).getD [] ++
                     (List.lookup "Female" p.2).getD []) idx) ∧
    (∀ (accent : String) (idx : Int),
        resolveVoice accent none idx ≠ .error .noVoicesForGender) := by
  constructor
  · intro p hp idx
    fin_cases hp <;> rfl
  · intro accent idx
    unfold resolveVoice
    cases hl : List.lookup accent available_accents with
    | none => simp
    | some gmap =>
      simp only [genderGiven, Bool.false_eq_true, if_false]
      exact pickVoice_ne_noVoices _ _

/-- Witness for C10: American with gender omitted at out-of-range index 5
resolves from the 4-voice combined list (clamped to its head), and a call
with an unknown accent and no gender does not fail with NoVoicesForGender. -/
theorem gender_omitted_uses_combined_list_witness :
    resolveVoice "American" none 5 = .ok "en-US-ChristopherNeural" ∧
    resolveVoice "Martian" none 0 ≠ .error .noVoicesForGender := by
  constructor
  · have h := gender_omitted_uses_combined_list.1
      ("American",
        [("Male", ["en-US-ChristopherNeural", "en-US-GuyNeural"]),
         ("Female", ["en-US-JennyNeural", "en-US-AriaNeural"])]) (by decide) 5
    rw [h]
    decide
  · exact gender_omitted_uses_combined_list.2 "Martian" 0

end TTS
